import Mathlib

/-!
Verification of the Daywise AI-suggestion pipeline.

Shallow embedding of the pipeline's source:
- mobile `AIService` (prompt building, response normalization, fallback catalog),
- backend `OllamaService` (user-prompt rendering, response text extraction).

Modelling conventions:
- JavaScript numbers are embedded as `Int` (the pipeline only compares, subtracts
  and takes `min`/`max`/`Math.round` on them; `Math.round` is the identity here).
- A JS optional field is an `Option`; JS truthiness of `x || d` is `orNum`/`orStr`
  (`0`, `""`, `null` and `undefined` are falsy; arrays, even empty, are truthy).
- The regexes of `ollama-service.ts` are embedded as explicit backtracking
  matchers over `List Char` with the exact greedy/backtrack semantics of the
  source patterns (`/^\d+\.|^-|^\*/`, `/recipe:?\s*([^,.\n]+)/i`,
  `/make\s+([^,.\n]+)/i`, `/try\s+([^,.\n]+)/i`).
- String helpers (`trim`, `split`, `includes`, `toLowerCase`) are embedded as
  list-of-character functions with JS semantics for ASCII whitespace.
- The network round trip is abstracted by an outcome value: `none` models any
  failed fetch / non-ok HTTP status (including the 503 the backend route sends
  when the LLM health check fails or `generateSuggestions` throws), and
  `some suggs` models a 200 response carrying `data.suggestions`.
- `Date.now()` is passed in as a `now : Nat` parameter.
-/

namespace Daywise

/-- Meal types of the mobile `MealRecommendation` interface. -/
inductive MealType
  | breakfast
  | lunch
  | dinner
  | snack
deriving DecidableEq, Repr

/-- The `AiPromptSchema` type enum: the four prompt categories. -/
inductive PromptType
  | meal_planning
  | shopping_optimization
  | budget_analysis
  | cleaning_schedule
deriving DecidableEq, Repr

/-- A loosely-typed suggestion object (`any` in the source): the union of the
fields produced by the backend extraction branches and consumed by the mobile
`parseMealRecommendations`. Absent JS fields are `none`. -/
structure Suggestion where
  meal : Option String := none
  recipe_name : Option String := none
  reasoning : Option String := none
  advice : Option String := none
  item : Option String := none
  category : Option String := none
  task : Option String := none
  prep_time : Option Int := none
  calories : Option Int := none
  protein : Option Int := none
  carbs : Option Int := none
  fat : Option Int := none
  ingredients : Option (List String) := none
  instructions : Option (List String) := none
deriving DecidableEq, Repr

/-- The mobile `MealRecommendation` interface. -/
structure MealRecommendation where
  id : String
  name : String
  description : String
  reason : String
  prepTime : Int
  difficulty : Int
  calories : Int
  protein : Int
  carbs : Int
  fat : Int
  ingredients : List String
  instructions : List String
  tags : List String
  mealType : MealType
  sportsFriendly : Bool
deriving DecidableEq, Repr

/-- The nutrition shape of the mobile `getMealRecommendations` params:
calories/protein/carbs/fat are required, fiber is optional. -/
structure Nutrition where
  calories : Int
  protein : Int
  carbs : Int
  fat : Int
  fiber : Option Int := none
deriving DecidableEq, Repr

/-- The params of the mobile `getMealRecommendations` (preferences and calendar
events are only forwarded as opaque prompt context and are omitted). -/
structure Params where
  currentNutrition : Nutrition
  targets : Nutrition
  mealType : Option MealType := none
deriving DecidableEq, Repr

/-- JS `v || d` for an optional numeric field: a missing field and `0` are falsy. -/
def orNum (v : Option Int) (d : Int) : Int :=
  match v with
  | some n => if n = 0 then d else n
  | none => d

/-- JS `v || d` for an optional string field: a missing field and `""` are falsy. -/
def orStr (v : Option String) (d : String) : String :=
  match v with
  | some s => if s = "" then d else s
  | none => d

/-- JS `v || d` for an optional array field: arrays are always truthy. -/
def orList (v : Option (List String)) (d : List String) : List String :=
  match v with
  | some l => l
  | none => d

/-- JS truthiness of an optional string. -/
def strTruthy : Option String → Bool
  | some s => s != ""
  | none => false

/-- JS `a || b` where both sides are optional strings. -/
def orOptStr (a b : Option String) : Option String :=
  if strTruthy a then a else b

/-- Does the character list start with the given pattern list (exact characters)? -/
def startsWithChars : List Char → List Char → Bool
  | _, [] => true
  | [], _ :: _ => false
  | a :: as, b :: bs => a == b && startsWithChars as bs

/-- JS `String.prototype.includes`, on character lists. -/
def containsChars (l sub : List Char) : Bool :=
  match l with
  | [] => startsWithChars [] sub
  | _ :: rest => startsWithChars l sub || containsChars rest sub

/-- JS `s.includes(sub)`. -/
def includesSub (s sub : String) : Bool :=
  containsChars s.data sub.data

/-- JS `s.toLowerCase()` (ASCII). -/
def toLowerStr (s : String) : String :=
  String.mk (s.data.map Char.toLower)

/-- JS `s.trim()` (ASCII whitespace). -/
def trimStr (s : String) : String :=
  String.mk (((s.data.dropWhile Char.isWhitespace).reverse.dropWhile Char.isWhitespace).reverse)

/-- Split a character list at every occurrence of a separator character,
with JS `String.prototype.split` semantics (empty pieces kept). -/
def splitOnChar (sep : Char) : List Char → List (List Char)
  | [] => [[]]
  | c :: rest =>
    if c = sep then
      [] :: splitOnChar sep rest
    else
      match splitOnChar sep rest with
      | h :: t => (c :: h) :: t
      | [] => [[c]]

/-- JS `response.split(String.fromCharCode(10))`. -/
def splitLines (s : String) : List String :=
  (splitOnChar '\n' s.data).map String.mk

/-- JS `s.split(" ")`. -/
def splitOnSpace (s : String) : List String :=
  (splitOnChar ' ' s.data).map String.mk

/-- JS `s.split("\n\n")`: leftmost, non-overlapping two-newline separators. -/
def splitOnBlank : List Char → List (List Char)
  | '\n' :: '\n' :: rest => [] :: splitOnBlank rest
  | c :: rest =>
    match splitOnBlank rest with
    | h :: t => (c :: h) :: t
    | [] => [[c]]
  | [] => [[]]

/-- JS `words.join(" ")`. -/
def joinSpace : List String → String
  | [] => ""
  | [w] => w
  | w :: ws => w ++ " " ++ joinSpace ws

/-! Mobile `AIService` heuristic estimators (`aiService.ts`). In the source each
takes `recipeName?: string` and first returns its default on `!recipeName`,
which covers both a missing argument and the empty string. -/

/-- `AIService.estimatePrepTime`. -/
def estimatePrepTime (recipeName : Option String) : Int :=
  match recipeName with
  | none => 15
  | some r =>
    if r = "" then 15
    else
      let name := toLowerStr r
      if includesSub name "smoothie" || includesSub name "yoghurt" then 5
      else if includesSub name "salad" || includesSub name "sandwich" then 10
      else if includesSub name "soup" || includesSub name "stew" then 45
      else 20

/-- `AIService.estimateDifficulty`. -/
def estimateDifficulty (recipeName : Option String) : Int :=
  match recipeName with
  | none => 2
  | some r =>
    if r = "" then 2
    else
      let name := toLowerStr r
      if includesSub name "smoothie" || includesSub name "yoghurt" then 1
      else if includesSub name "roast" || includesSub name "stew" then 3
      else 2

/-- `AIService.estimateCalories`. -/
def estimateCalories (recipeName : Option String) : Int :=
  match recipeName with
  | none => 300
  | some r =>
    if r = "" then 300
    else
      let name := toLowerStr r
      if includesSub name "salad" then 250
      else if includesSub name "smoothie" then 200
      else if includesSub name "soup" then 300
      else 400

/-- `AIService.estimateProtein`. -/
def estimateProtein (recipeName : Option String) : Int :=
  match recipeName with
  | none => 15
  | some r =>
    if r = "" then 15
    else
      let name := toLowerStr r
      if includesSub name "chicken" || includesSub name "fish" || includesSub name "meat" then 25
      else if includesSub name "egg" then 20
      else if includesSub name "yoghurt" then 12
      else 15

/-- `AIService.estimateCarbs`. -/
def estimateCarbs (recipeName : Option String) : Int :=
  match recipeName with
  | none => 30
  | some r =>
    if r = "" then 30
    else
      let name := toLowerStr r
      if includesSub name "salad" then 15
      else if includesSub name "bread" || includesSub name "pasta" then 45
      else 30

/-- `AIService.estimateFat`. -/
def estimateFat (recipeName : Option String) : Int :=
  match recipeName with
  | none => 12
  | some r =>
    if r = "" then 12
    else
      let name := toLowerStr r
      if includesSub name "avocado" || includesSub name "nuts" then 18
      else if includesSub name "salmon" || includesSub name "fish" then 15
      else 12

/-- `AIService.getDefaultIngredients`. -/
def getDefaultIngredients (recipeName : Option String) : List String :=
  match recipeName with
  | none => ["diverse ingrediënten"]
  | some r =>
    if r = "" then ["diverse ingrediënten"]
    else ["hoofdingrediënt", "groenten", "kruiden", "olie"]

/-- `AIService.determineMealType`. -/
def determineMealType (name : Option String) : MealType :=
  match name with
  | none => .lunch
  | some n =>
    if n = "" then .lunch
    else
      let lowerName := toLowerStr n
      if includesSub lowerName "breakfast" || includesSub lowerName "ontbijt" then .breakfast
      else if includesSub lowerName "dinner" || includesSub lowerName "diner" then .dinner
      else if includesSub lowerName "snack" || includesSub lowerName "tussendoortje" then .snack
      else .lunch

/-- `AIService.isSportsFriendly`. -/
def isSportsFriendly (name : Option String) : Bool :=
  match name with
  | none => false
  | some n =>
    if n = "" then false
    else
      let lowerName := toLowerStr n
      includesSub lowerName "protein" || includesSub lowerName "recovery" ||
        includesSub lowerName "energy"

/-- One record of `AIService.parseMealRecommendations`: the normalization of a
single suggestion at forEach index `idx` (`Date.now()` passed in as `now`). -/
def parseMealRecommendation (now idx : Nat) (s : Suggestion) : MealRecommendation :=
  { id := "ai-" ++ toString now ++ "-" ++ toString idx
    name := orStr s.recipe_name (orStr s.meal "Maaltijdvoorstel")
    description := orStr s.reasoning (orStr s.advice "AI-gegenereerd voorstel")
    reason := orStr s.reasoning "Aanbevolen door AI"
    prepTime := orNum s.prep_time (estimatePrepTime s.recipe_name)
    difficulty := estimateDifficulty s.recipe_name
    calories := orNum s.calories (estimateCalories s.recipe_name)
    protein := orNum s.protein (estimateProtein s.recipe_name)
    carbs := orNum s.carbs (estimateCarbs s.recipe_name)
    fat := orNum s.fat (estimateFat s.recipe_name)
    ingredients := orList s.ingredients (getDefaultIngredients s.recipe_name)
    instructions := orList s.instructions ["Bereid volgens traditionele Nederlandse wijze"]
    tags := ["AI-aanbeveling", "personalized"]
    mealType := determineMealType (orOptStr s.meal s.recipe_name)
    sportsFriendly := isSportsFriendly (orOptStr s.recipe_name s.advice) }

/-- `AIService.parseMealRecommendations`: keep the suggestions whose `meal` or
`recipe_name` is truthy, normalizing each (forEach index preserved). -/
def parseMealRecommendations (suggestions : List Suggestion) (now : Nat) :
    List MealRecommendation :=
  ((suggestions.enum.filter fun p => strTruthy p.2.meal || strTruthy p.2.recipe_name).map
    fun p => parseMealRecommendation now p.1 p.2)

/-- The deficit object computed identically at the top of the mobile
`buildMealRecommendationPrompt` and `getEnhancedFallbackRecommendations`. -/
structure Deficit where
  calories : Int
  protein : Int
  carbs : Int
  fat : Int
  fiber : Int
deriving DecidableEq, Repr

/-- The mobile deficit computation: `targets - currentNutrition`, with fiber
defaulting as `(targets.fiber || 30) - (currentNutrition.fiber || 0)`. -/
def mealDeficit (p : Params) : Deficit :=
  { calories := p.targets.calories - p.currentNutrition.calories
    protein := p.targets.protein - p.currentNutrition.protein
    carbs := p.targets.carbs - p.currentNutrition.carbs
    fat := p.targets.fat - p.currentNutrition.fat
    fiber := orNum p.targets.fiber 30 - orNum p.currentNutrition.fiber 0 }

/-- The fiber clause of `buildMealRecommendationPrompt`, rendered only when the
fiber deficit is positive. -/
def fiberClause (deficit : Deficit) : String :=
  if deficit.fiber > 0 then
    "Ook zou ik nog " ++ toString deficit.fiber ++ "g vezels moeten hebben. "
  else ""

/-- The Dutch meal-type word used by `buildMealRecommendationPrompt`. -/
def mealTypeDutch : MealType → String
  | .breakfast => "ontbijt"
  | .lunch => "lunch"
  | .dinner => "diner"
  | .snack => "tussendoortje"

/-- `AIService.buildMealRecommendationPrompt`: renders the raw (unfloored)
calorie/protein/carb/fat deficits; only the fiber clause is guarded. -/
def buildMealRecommendationPrompt (p : Params) : String :=
  let deficit := mealDeficit p
  let prompt0 := "Ik heb vandaag al " ++ toString p.currentNutrition.calories ++
    " calorieën gehad van mijn " ++ toString p.targets.calories ++ " calorie doel. "
  let prompt1 := prompt0 ++ "Ik heb nog " ++ toString deficit.calories ++ " calorieën, " ++
    toString deficit.protein ++ "g eiwit, " ++ toString deficit.carbs ++
    "g koolhydraten, en " ++ toString deficit.fat ++ "g vet nodig. "
  let prompt2 := prompt1 ++ fiberClause deficit
  let prompt3 :=
    match p.mealType with
    | some mt => prompt2 ++ "Geef me aanbevelingen voor " ++ mealTypeDutch mt ++ ". "
    | none => prompt2
  prompt3 ++
    "Geef specifieke recepten met ingrediënten en voedingswaarden die passen bij Nederlandse maaltijdpatronen."

/-- The high-protein record of `getEnhancedFallbackRecommendations`
(included when the protein deficit exceeds 20). -/
def proteinFallbackRec (deficit : Deficit) (mealType : Option MealType) : MealRecommendation :=
  { id := "fallback-protein-1"
    name := "Kipfilet met Quinoa"
    description := "Hoge eiwit maaltijd met magere kipfilet en quinoa"
    reason := "Je hebt nog " ++ toString deficit.protein ++ "g eiwit nodig vandaag"
    prepTime := 20
    difficulty := 2
    calories := min deficit.calories 450
    protein := 35
    carbs := 40
    fat := 8
    ingredients := ["kipfilet", "quinoa", "broccoli", "olijfolie"]
    instructions := ["Grill kipfilet", "Kook quinoa", "Stoom broccoli"]
    tags := ["hoog eiwit", "magere keuze"]
    mealType := mealType.getD .lunch
    sportsFriendly := true }

/-- The high-fiber record of `getEnhancedFallbackRecommendations`
(included when the fiber deficit exceeds 15). -/
def fiberFallbackRec (deficit : Deficit) (mealType : Option MealType) : MealRecommendation :=
  { id := "fallback-fiber-1"
    name := "Volkoren Wrap met Bonen"
    description := "Vezelrijke wrap met zwarte bonen en groenten"
    reason := "Goede bron van vezels (" ++ toString deficit.fiber ++ "g tekort)"
    prepTime := 10
    difficulty := 1
    calories := min deficit.calories 380
    protein := 15
    carbs := 55
    fat := 12
    ingredients := ["volkoren wrap", "zwarte bonen", "paprika", "avocado"]
    instructions := ["Verwarm wrap", "Voeg bonen toe", "Rol met groenten"]
    tags := ["hoge vezels", "vegetarisch"]
    mealType := mealType.getD .lunch
    sportsFriendly := false }

/-- The energy-dense record of `getEnhancedFallbackRecommendations`
(included when the calorie deficit exceeds 500; always a dinner record). -/
def energyFallbackRec (deficit : Deficit) : MealRecommendation :=
  { id := "fallback-energy-1"
    name := "Nederlandse Stamppot"
    description := "Traditionele Nederlandse stamppot met worst"
    reason := "Energierijke maaltijd voor je resterende " ++ toString deficit.calories ++
      " calorieën"
    prepTime := 30
    difficulty := 2
    calories := min deficit.calories 550
    protein := 22
    carbs := 65
    fat := 18
    ingredients := ["aardappelen", "boerenkool", "rookworst", "ui"]
    instructions := ["Kook aardappelen", "Stamp met boerenkool", "Voeg worst toe"]
    tags := ["traditioneel", "winters", "verzadigend"]
    mealType := .dinner
    sportsFriendly := false }

/-- The static breakfast record of `getFallbackMealRecommendations`. -/
def breakfastFallbackRec : MealRecommendation :=
  { id := "fallback-breakfast-1"
    name := "Havermout met Fruit"
    description := "Voedzame havermout met seizoensfruit en noten"
    reason := "Hoge vezels en langzame koolhydraten voor stabiele energie"
    prepTime := 5
    difficulty := 1
    calories := 340
    protein := 12
    carbs := 52
    fat := 8
    ingredients := ["havermout", "melk", "banaan", "walnoten", "honing"]
    instructions := ["Kook havermout met melk", "Voeg fruit toe", "Garneer met noten"]
    tags := ["vezels", "gezond", "snel"]
    mealType := .breakfast
    sportsFriendly := true }

/-- The static lunch record of `getFallbackMealRecommendations`. -/
def lunchFallbackRec : MealRecommendation :=
  { id := "fallback-lunch-1"
    name := "Volkoren Sandwich met Ei"
    description := "Protein-rijke lunch met volkoren brood"
    reason := "Goede balans van eiwitten en complexe koolhydraten"
    prepTime := 10
    difficulty := 1
    calories := 380
    protein := 18
    carbs := 35
    fat := 16
    ingredients := ["volkoren brood", "ei", "avocado", "tomaat", "rucola"]
    instructions := ["Toast brood", "Bakje ei", "Beleg met groenten"]
    tags := ["eiwit", "verzadigend"]
    mealType := .lunch
    sportsFriendly := true }

/-- The static dinner record of `getFallbackMealRecommendations`. -/
def dinnerFallbackRec : MealRecommendation :=
  { id := "fallback-dinner-1"
    name := "Zalm met Zoete Aardappel"
    description := "Omega-3 rijke zalm met gepofte zoete aardappel"
    reason := "Hoog in omega-3 en complexe koolhydraten"
    prepTime := 25
    difficulty := 2
    calories := 450
    protein := 35
    carbs := 38
    fat := 18
    ingredients := ["zalm filet", "zoete aardappel", "broccoli", "olijfolie", "citroen"]
    instructions := ["Grill zalm", "Bak zoete aardappel", "Stoom broccoli"]
    tags := ["omega-3", "gezond"]
    mealType := .dinner
    sportsFriendly := true }

/-- The key under which a meal type is looked up in the `fallbacks` table. -/
def mealTypeKey : MealType → String
  | .breakfast => "breakfast"
  | .lunch => "lunch"
  | .dinner => "dinner"
  | .snack => "snack"

/-- The `fallbacks` table literal of `getFallbackMealRecommendations`: it has
entries only for breakfast, lunch and dinner. -/
def fallbacksTable (key : String) : Option (List MealRecommendation) :=
  if key = "breakfast" then some [breakfastFallbackRec]
  else if key = "lunch" then some [lunchFallbackRec]
  else if key = "dinner" then some [dinnerFallbackRec]
  else none

/-- `AIService.getFallbackMealRecommendations`:
`fallbacks[mealType || (lunch-key)] || fallbacks.lunch`. -/
def getFallbackMealRecommendations (mealType : Option MealType) : List MealRecommendation :=
  (fallbacksTable ((mealType.map mealTypeKey).getD "lunch")).getD [lunchFallbackRec]

/-- `AIService.getEnhancedFallbackRecommendations`: the deficit-threshold rule
list, falling back to `getFallbackMealRecommendations` when no rule fires. -/
def getEnhancedFallbackRecommendations (p : Params) : List MealRecommendation :=
  let deficit := mealDeficit p
  let recommendations :=
    (if deficit.protein > 20 then [proteinFallbackRec deficit p.mealType] else []) ++
    (if deficit.fiber > 15 then [fiberFallbackRec deficit p.mealType] else []) ++
    (if deficit.calories > 500 then [energyFallbackRec deficit] else [])
  if recommendations.isEmpty then getFallbackMealRecommendations p.mealType
  else recommendations

/-- `AIService.getMealRecommendations`, with the network round trip abstracted:
`some suggs` is a 200 response carrying `data.suggestions`; `none` is any failure
(fetch exception or non-ok status, including the backend 503 sent when the LLM
health check fails or the LLM call errors), which the catch block turns into the
fallback catalog. -/
def getMealRecommendations (p : Params) (outcome : Option (List Suggestion)) (now : Nat) :
    List MealRecommendation :=
  match outcome with
  | some suggs => parseMealRecommendations suggs now
  | none => getEnhancedFallbackRecommendations p

/-! Backend `OllamaService` (`ollama-service.ts`): regex embeddings. -/

/-- A character excluded by the capture class of the dish-name regexes. -/
def isBadCapChar (c : Char) : Bool :=
  c == ',' || c == '.' || c == '\n'

/-- The greedy capture of the dish-name regexes at the head of `l`
(one or more characters other than comma, period, newline). -/
def capPlus (l : List Char) : Option (List Char) :=
  match l with
  | [] => none
  | c :: _ => if isBadCapChar c then none else some (l.takeWhile fun c => !isBadCapChar c)

/-- Greedy whitespace run followed by the capture, with regex backtracking:
longer whitespace runs are tried first, falling back one character at a time. -/
def wsStarCap : List Char → Option (List Char)
  | [] => none
  | c :: rest =>
    if c.isWhitespace then
      match wsStarCap rest with
      | some r => some r
      | none => capPlus (c :: rest)
    else capPlus (c :: rest)

/-- The tail of the recipe regex after its literal: an optional colon (greedy,
with backtracking), then whitespace-star and the capture. -/
def optColonWsCap (l : List Char) : Option (List Char) :=
  match l with
  | ':' :: rest =>
    (match wsStarCap rest with
     | some r => some r
     | none => wsStarCap l)
  | _ => wsStarCap l

/-- The tail of the make/try regexes after their literal: at least one
whitespace character, then the capture (with backtracking). -/
def wsPlusCap (l : List Char) : Option (List Char) :=
  match l with
  | [] => none
  | c :: rest => if c.isWhitespace then wsStarCap rest else none

/-- Case-insensitive literal match of `lit` at the head of `l`
(the `i` flag of the dish-name regexes, ASCII). -/
def caselessStarts : List Char → List Char → Bool
  | [], _ => true
  | _ :: _, [] => false
  | a :: as, b :: bs => (a.toLower == b.toLower) && caselessStarts as bs

/-- Leftmost regex search: find the first position where the literal matches
case-insensitively and the pattern tail succeeds on the remainder; on a tail
failure the engine advances one character, as an unanchored JS regex does. -/
def searchCapture (lit : List Char) (tl : List Char → Option (List Char)) :
    List Char → Option (List Char)
  | [] => none
  | l@(_ :: rest) =>
    if caselessStarts lit l then
      match tl (l.drop lit.length) with
      | some r => some r
      | none => searchCapture lit tl rest
    else searchCapture lit tl rest

/-- Does one of the three dish-name regexes of `extractRecipeName` match the
line at all (before the trim and truthiness checks)? -/
def dishPatternMatch (line : String) : Bool :=
  (searchCapture "recipe".data optColonWsCap line.data).isSome ||
  (searchCapture "make".data wsPlusCap line.data).isSome ||
  (searchCapture "try".data wsPlusCap line.data).isSome

/-- `OllamaService.extractRecipeName`: try the three patterns in order and
return the trimmed first capture group of the first one that matches (the raw
capture is always non-empty, but its trim can be empty). -/
def extractRecipeName (line : String) : Option String :=
  match searchCapture "recipe".data optColonWsCap line.data with
  | some cap => some (trimStr (String.mk cap))
  | none =>
    match searchCapture "make".data wsPlusCap line.data with
    | some cap => some (trimStr (String.mk cap))
    | none =>
      match searchCapture "try".data wsPlusCap line.data with
      | some cap => some (trimStr (String.mk cap))
      | none => none

/-- The list-marker test of `extractSuggestions`: the line starts with one or
more digits followed by a period, or with a hyphen, or with an asterisk. -/
def isMarkerLine (line : String) : Bool :=
  match line.data with
  | [] => false
  | '-' :: _ => true
  | '*' :: _ => true
  | l =>
    let ds := l.takeWhile Char.isDigit
    !ds.isEmpty &&
      (match l.drop ds.length with
       | '.' :: _ => true
       | _ => false)

/-- JS `line.replace` of the first anchored list-marker match with the empty
string (used by `extractItemName` and `extractTaskName`). -/
def stripMarker (line : String) : String :=
  match line.data with
  | '-' :: rest => String.mk rest
  | '*' :: rest => String.mk rest
  | l =>
    let ds := l.takeWhile Char.isDigit
    if ds.isEmpty then line
    else
      match l.drop ds.length with
      | '.' :: rest => String.mk rest
      | _ => line

/-- `OllamaService.extractMealType`. -/
def extractMealType (line : String) : String :=
  let lower := toLowerStr line
  if includesSub lower "breakfast" then "breakfast"
  else if includesSub lower "lunch" then "lunch"
  else if includesSub lower "dinner" then "dinner"
  else if includesSub lower "snack" then "snack"
  else "meal"

/-- `OllamaService.extractItemName`. -/
def extractItemName (line : String) : String :=
  let cleaned := trimStr (stripMarker line)
  let words := splitOnSpace cleaned
  orStr words.head? "item"

/-- `OllamaService.extractCategory`. -/
def extractCategory (line : String) : String :=
  let lower := toLowerStr line
  if includesSub lower "groceries" then "groceries"
  else if includesSub lower "utilities" then "utilities"
  else if includesSub lower "transport" then "transport"
  else if includesSub lower "entertainment" then "entertainment"
  else "general"

/-- `OllamaService.extractTaskName`. -/
def extractTaskName (line : String) : String :=
  let cleaned := trimStr (stripMarker line)
  let words := splitOnSpace cleaned
  let joined := joinSpace (words.take 3)
  if joined = "" then "cleaning task" else joined

/-- The lines considered by `extractSuggestions`:
`response.split(newline).filter(line => line.trim())`. -/
def responseLines (response : String) : List String :=
  (splitLines response).filter fun line => trimStr line != ""

/-- One iteration of the meal-planning branch of `extractSuggestions`: a marker
line contributes a record only when the extracted recipe name is truthy. -/
def mealLineSuggestion (line : String) : Option Suggestion :=
  if isMarkerLine line then
    match extractRecipeName line with
    | some name =>
      if name = "" then none
      else some { meal := some (extractMealType line), recipe_name := some name,
                  reasoning := some (trimStr line) }
    | none => none
  else none

/-- One iteration of the shopping-optimization branch of `extractSuggestions`. -/
def shoppingLineSuggestion (line : String) : Option Suggestion :=
  if isMarkerLine line then
    some { item := some (extractItemName line), advice := some (trimStr line) }
  else none

/-- One iteration of the budget-analysis branch of `extractSuggestions`. -/
def budgetLineSuggestion (line : String) : Option Suggestion :=
  if isMarkerLine line then
    some { category := some (extractCategory line), advice := some (trimStr line) }
  else none

/-- One iteration of the cleaning-schedule branch of `extractSuggestions`. -/
def cleaningLineSuggestion (line : String) : Option Suggestion :=
  if isMarkerLine line then
    some { task := some (extractTaskName line), advice := some (trimStr line) }
  else none

/-- `OllamaService.extractSuggestions`: category-specific line extraction, with
the whole response becoming one generic record when nothing was extracted (the
source's `default` switch branch is unreachable for the four-value enum). -/
def extractSuggestions (response : String) (type : PromptType) : List Suggestion :=
  let lines := responseLines response
  let suggestions :=
    match type with
    | .meal_planning => lines.filterMap mealLineSuggestion
    | .shopping_optimization => lines.filterMap shoppingLineSuggestion
    | .budget_analysis => lines.filterMap budgetLineSuggestion
    | .cleaning_schedule => lines.filterMap cleaningLineSuggestion
  if suggestions.isEmpty then [{ advice := some response }] else suggestions

/-- `OllamaService.extractReasoning`: the first double-newline paragraph, or the
default when that paragraph is empty. -/
def extractReasoning (response : String) : String :=
  let paragraphs := (splitOnBlank response.data).map String.mk
  orStr paragraphs.head? "Local AI analysis completed"

/-- The backend `AiResponse` shape as produced by `parseOllamaResponse`
(`confidence` is a JS number; embedded as a rational). -/
structure AiResponse where
  type : PromptType
  suggestions : List Suggestion
  reasoning : String
  confidence : ℚ
deriving DecidableEq, Repr

/-- `OllamaService.parseOllamaResponse`. -/
def parseOllamaResponse (response : String) (type : PromptType) : AiResponse :=
  { type := type
    suggestions := extractSuggestions response type
    reasoning := extractReasoning response
    confidence := 0.7 }

/-! Backend `OllamaService.buildUserPrompt` and its context shapes. -/

/-- The all-optional nutrition records found in the untyped
`user_preferences` context (`z.record(z.any())`). -/
structure NutritionInfo where
  calories : Option Int := none
  protein : Option Int := none
  carbs : Option Int := none
  fat : Option Int := none
  fiber : Option Int := none
deriving DecidableEq, Repr

/-- A calendar event as rendered into the prompt (`title`, the
`toLocaleString` rendering of `start_time`, and `event_type`). -/
structure CalendarEventCtx where
  title : String
  start_time : String
  event_type : String
deriving DecidableEq, Repr

/-- The `user_preferences` fields read by `buildUserPrompt`. JS truthiness of
the object/array checks is modelled by `Option` (an empty list is truthy). -/
structure UserPreferences where
  dietary : Option (List String) := none
  nutrition_goals : Option NutritionInfo := none
  current_nutrition : Option NutritionInfo := none
  meals_today : Option (List String) := none
deriving DecidableEq, Repr

/-- The `AiPrompt.context` fields read by `buildUserPrompt` (`current_date` is
the `toLocaleDateString` rendering). -/
structure PromptContext where
  calendar_events : List CalendarEventCtx := []
  user_preferences : Option UserPreferences := none
  current_date : String
  location : String
deriving DecidableEq, Repr

/-- The backend `AiPrompt` as read by `buildUserPrompt`. -/
structure AiPrompt where
  type : PromptType
  context : PromptContext
  user_input : String
deriving DecidableEq, Repr

/-- The calorie gap of `buildUserPrompt`:
`(goals.calories || 2200) - (current.calories || 0)`. -/
def calorieGap (goals current : NutritionInfo) : Int :=
  orNum goals.calories 2200 - orNum current.calories 0

/-- The protein gap of `buildUserPrompt`. -/
def proteinGap (goals current : NutritionInfo) : Int :=
  orNum goals.protein 150 - orNum current.protein 0

/-- The carb gap of `buildUserPrompt`. -/
def carbGap (goals current : NutritionInfo) : Int :=
  orNum goals.carbs 250 - orNum current.carbs 0

/-- The fat gap of `buildUserPrompt`. -/
def fatGap (goals current : NutritionInfo) : Int :=
  orNum goals.fat 80 - orNum current.fat 0

/-- The `Remaining today` line of `buildUserPrompt`: every gap is rendered
through `Math.max(0, gap)`. -/
def remainingLine (goals current : NutritionInfo) : String :=
  "Remaining today: " ++ toString (max 0 (calorieGap goals current)) ++ " kcal, " ++
    toString (max 0 (proteinGap goals current)) ++ "g protein, " ++
    toString (max 0 (carbGap goals current)) ++ "g carbs, " ++
    toString (max 0 (fatGap goals current)) ++ "g fat\n"

/-- The `Nutrition today` line of `buildUserPrompt`. -/
def nutritionTodayLine (current : NutritionInfo) : String :=
  "\nNutrition today: " ++ toString (orNum current.calories 0) ++ " kcal, " ++
    toString (orNum current.protein 0) ++ "g protein, " ++
    toString (orNum current.carbs 0) ++ "g carbs, " ++
    toString (orNum current.fat 0) ++ "g fat\n"

/-- The `Daily goals` line of `buildUserPrompt`. -/
def dailyGoalsLine (goals : NutritionInfo) : String :=
  "Daily goals: " ++ toString (orNum goals.calories 2200) ++ " kcal, " ++
    toString (orNum goals.protein 150) ++ "g protein, " ++
    toString (orNum goals.carbs 250) ++ "g carbs, " ++
    toString (orNum goals.fat 80) ++ "g fat\n"

/-- The `Nutrition today` + `Daily goals` + `Remaining today` section of
`buildUserPrompt`, appended when `current_nutrition` is present; the goals
lines are appended only when `nutrition_goals` is present. -/
def nutritionSection (prefs : UserPreferences) : String :=
  match prefs.current_nutrition with
  | none => ""
  | some current =>
    match prefs.nutrition_goals with
    | none => nutritionTodayLine current
    | some goals =>
      nutritionTodayLine current ++ dailyGoalsLine goals ++ remainingLine goals current

/-- The meals-eaten-today section of `buildUserPrompt` (header appended
whenever the `meals_today` field is present, even when empty). -/
def mealsSection (prefs : UserPreferences) : String :=
  match prefs.meals_today with
  | none => ""
  | some meals =>
    "\nMeals already eaten today:\n" ++
      (meals.map fun meal => "- " ++ meal ++ "\n").foldl (· ++ ·) ""

/-- The calendar section of `buildUserPrompt` (appended only when the event
list is non-empty). -/
def calendarSection (events : List CalendarEventCtx) : String :=
  if events.isEmpty then ""
  else
    "\nUpcoming calendar events:\n" ++
      (events.map fun event =>
        "- " ++ event.title ++ " at " ++ event.start_time ++ " (" ++ event.event_type ++ ")\n"
        ).foldl (· ++ ·) ""

/-- The dietary-preferences section of `buildUserPrompt` (appended whenever the
`dietary` field is present, even when empty). -/
def dietarySection (prefs : UserPreferences) : String :=
  match prefs.dietary with
  | none => ""
  | some dietary => "\nDietary preferences: " ++ String.intercalate ", " dietary ++ "\n"

/-- The first two lines of `buildUserPrompt`. -/
def headerLines (context : PromptContext) : String :=
  "Current date: " ++ context.current_date ++ "\n" ++
    "Location: " ++ context.location ++ "\n"

/-- The trailing user-request block of `buildUserPrompt`. -/
def userRequestTail (user_input : String) : String :=
  "\nUser request: " ++ user_input ++
    "\n\nFocus on practical meal suggestions that fill nutrition gaps. Be specific about ingredients and portions. Keep suggestions simple and achievable."

/-- `OllamaService.buildUserPrompt`. -/
def buildUserPrompt (prompt : AiPrompt) : String :=
  let context := prompt.context
  let prefsSections :=
    match context.user_preferences with
    | none => ""
    | some prefs => nutritionSection prefs ++ mealsSection prefs
  let prefsTail :=
    match context.user_preferences with
    | none => ""
    | some prefs => dietarySection prefs
  headerLines context ++ prefsSections ++ calendarSection context.calendar_events ++
    prefsTail ++ userRequestTail prompt.user_input

/-- The whole request pipeline with the LLM outcome abstracted: `some text`
models a healthy LLM returning completion text (the backend extracts
suggestions, which the mobile client then normalizes); `none` models an
unhealthy or failing LLM (the backend answers 503, the mobile catch block uses
the fallback catalog). The mobile client always sends a meal-planning prompt. -/
def pipelineResult (p : Params) (llm : Option String) (now : Nat) : List MealRecommendation :=
  getMealRecommendations p (llm.map fun text => extractSuggestions text .meal_planning) now

/-! Predicates used by the claims. -/

/-- Every numeric value a suggestion actually supplies is non-negative. -/
def nonnegOpt (v : Option Int) : Bool :=
  match v with
  | some n => decide (0 ≤ n)
  | none => true

/-- The supplied numeric fields of a suggestion are all non-negative. -/
def suppliedNonneg (s : Suggestion) : Bool :=
  nonnegOpt s.prep_time && nonnegOpt s.calories && nonnegOpt s.protein &&
    nonnegOpt s.carbs && nonnegOpt s.fat

/-- The claimed invariant on a returned record: non-null (non-empty) name and
non-negative numeric fields. -/
def recFieldsOk (r : MealRecommendation) : Prop :=
  r.name ≠ "" ∧ 0 ≤ r.prepTime ∧ 0 ≤ r.difficulty ∧ 0 ≤ r.calories ∧ 0 ≤ r.protein ∧
    0 ≤ r.carbs ∧ 0 ≤ r.fat

instance (r : MealRecommendation) : Decidable (recFieldsOk r) := by
  unfold recFieldsOk
  infer_instance

/-! Concrete inputs used by the claims. -/

/-- Caller state whose calorie target is already exceeded by 500 while the
protein deficit is 25: the protein threshold fires. -/
def c1CexParams : Params :=
  { currentNutrition := ⟨500, 0, 0, 0, none⟩, targets := ⟨0, 25, 0, 0, none⟩ }

/-- A suggestion that supplies only a recipe name. -/
def c1Sugg : Suggestion := { recipe_name := some "Kip" }

/-- Caller state with a positive calorie deficit of 100. -/
def c1WParams : Params :=
  { currentNutrition := ⟨0, 0, 0, 0, none⟩, targets := ⟨100, 10, 10, 10, none⟩ }

/-- Caller state with current calories 1500 against a target of 1000. -/
def c2CexParams : Params :=
  { currentNutrition := ⟨1500, 0, 0, 0, none⟩, targets := ⟨1000, 0, 0, 0, none⟩ }

/-- A goals record for the backend prompt context. -/
def c2Goals : NutritionInfo :=
  { calories := some 2000, protein := some 150, carbs := some 250, fat := some 70 }

/-- A current-nutrition record for the backend prompt context. -/
def c2Current : NutritionInfo :=
  { calories := some 500, protein := some 30, carbs := some 60, fat := some 20 }

/-- Preferences carrying both nutrition records. -/
def c2Prefs : UserPreferences :=
  { nutrition_goals := some c2Goals, current_nutrition := some c2Current }

/-- A full backend prompt carrying the preferences above. -/
def c2Prompt : AiPrompt :=
  { type := .meal_planning
    context := { current_date := "1-1-2026", location := "Netherlands",
                 user_preferences := some c2Prefs }
    user_input := "hi" }

/-- Caller state whose fiber deficit is zero (fiber already at the default
target of 30). -/
def c2WParams : Params :=
  { currentNutrition := ⟨0, 0, 0, 0, some 30⟩, targets := ⟨0, 0, 0, 0, none⟩ }

/-- An arbitrary caller state (the success-path counterexample does not depend
on it). -/
def c3Params : Params :=
  { currentNutrition := ⟨0, 0, 0, 0, none⟩, targets := ⟨0, 0, 0, 0, none⟩ }

/-- Caller state with deficits calories 100, protein 25, fiber 5. -/
def c5WParams : Params :=
  { currentNutrition := ⟨0, 0, 0, 0, none⟩, targets := ⟨100, 25, 0, 0, some 5⟩ }

/-- Caller state with every deficit at zero and requested meal type snack. -/
def c6CexParams : Params :=
  { currentNutrition := ⟨0, 0, 0, 0, some 30⟩, targets := ⟨0, 0, 0, 0, none⟩,
    mealType := some .snack }

/-- Caller state with every deficit at zero and no requested meal type. -/
def c6WParams : Params :=
  { currentNutrition := ⟨0, 0, 0, 0, some 30⟩, targets := ⟨0, 0, 0, 0, none⟩ }

/-- Caller state with every deficit at zero and requested meal type breakfast. -/
def c8WParams : Params :=
  { currentNutrition := ⟨0, 0, 0, 0, some 30⟩, targets := ⟨0, 0, 0, 0, none⟩,
    mealType := some .breakfast }

/-! Helper lemmas. -/

lemma orStr_ne_empty (v : Option String) (d : String) (hd : d ≠ "") : orStr v d ≠ "" := by
  cases v with
  | none => simpa [orStr] using hd
  | some s =>
    by_cases h : s = "" <;> simp_all [orStr]

lemma orNum_nonneg (v : Option Int) (d : Int) (hv : nonnegOpt v = true) (hd : 0 ≤ d) :
    0 ≤ orNum v d := by
  cases v with
  | none => simpa [orNum] using hd
  | some n =>
    have hn : 0 ≤ n := by simpa [nonnegOpt] using hv
    by_cases h : n = 0 <;> simp [orNum, h] <;> assumption

lemma orNum_none (d : Int) : orNum none d = d := rfl

lemma estimatePrepTime_nonneg (r : Option String) : 0 ≤ estimatePrepTime r := by
  cases r with
  | none => decide
  | some s => simp only [estimatePrepTime]; split_ifs <;> decide

lemma estimateDifficulty_nonneg (r : Option String) : 0 ≤ estimateDifficulty r := by
  cases r with
  | none => decide
  | some s => simp only [estimateDifficulty]; split_ifs <;> decide

lemma estimateCalories_nonneg (r : Option String) : 0 ≤ estimateCalories r := by
  cases r with
  | none => decide
  | some s => simp only [estimateCalories]; split_ifs <;> decide

lemma estimateProtein_nonneg (r : Option String) : 0 ≤ estimateProtein r := by
  cases r with
  | none => decide
  | some s => simp only [estimateProtein]; split_ifs <;> decide

lemma estimateCarbs_nonneg (r : Option String) : 0 ≤ estimateCarbs r := by
  cases r with
  | none => decide
  | some s => simp only [estimateCarbs]; split_ifs <;> decide

lemma estimateFat_nonneg (r : Option String) : 0 ≤ estimateFat r := by
  cases r with
  | none => decide
  | some s => simp only [estimateFat]; split_ifs <;> decide

lemma suppliedNonneg_parts (s : Suggestion) (h : suppliedNonneg s = true) :
    nonnegOpt s.prep_time = true ∧ nonnegOpt s.calories = true ∧ nonnegOpt s.protein = true ∧
      nonnegOpt s.carbs = true ∧ nonnegOpt s.fat = true := by
  simpa [suppliedNonneg, Bool.and_eq_true, and_assoc] using h

/-- Every record produced by the per-suggestion normalization satisfies the
invariant, provided the suggestion's supplied numeric values are non-negative. -/
lemma parseMealRecommendation_ok (now idx : Nat) (s : Suggestion)
    (hs : suppliedNonneg s = true) : recFieldsOk (parseMealRecommendation now idx s) := by
  obtain ⟨h1, h2, h3, h4, h5⟩ := suppliedNonneg_parts s hs
  refine ⟨?_, ?_, ?_, ?_, ?_, ?_, ?_⟩
  · exact orStr_ne_empty _ _ (orStr_ne_empty _ _ (by decide))
  · exact orNum_nonneg _ _ h1 (estimatePrepTime_nonneg _)
  · exact estimateDifficulty_nonneg _
  · exact orNum_nonneg _ _ h2 (estimateCalories_nonneg _)
  · exact orNum_nonneg _ _ h3 (estimateProtein_nonneg _)
  · exact orNum_nonneg _ _ h4 (estimateCarbs_nonneg _)
  · exact orNum_nonneg _ _ h5 (estimateFat_nonneg _)

/-- The static fallback table records all satisfy the invariant. -/
lemma getFallback_ok (mt : Option MealType) :
    ∀ r ∈ getFallbackMealRecommendations mt, recFieldsOk r := by
  rcases mt with _ | mt
  · decide
  · cases mt <;> decide

/-- The static fallback table is never empty. -/
lemma getFallback_ne (mt : Option MealType) :
    (getFallbackMealRecommendations mt).isEmpty = false := by
  rcases mt with _ | mt
  · decide
  · cases mt <;> decide

/-- The enhanced fallback catalog is never empty. -/
lemma enhanced_ne (p : Params) :
    (getEnhancedFallbackRecommendations p).isEmpty = false := by
  rw [getEnhancedFallbackRecommendations]
  by_cases h1 : (mealDeficit p).protein > 20 <;>
    by_cases h2 : (mealDeficit p).fiber > 15 <;>
    by_cases h3 : (mealDeficit p).calories > 500 <;>
    simp [h1, h2, h3, getFallback_ne]

/-- Threshold records satisfy the invariant when the calorie deficit is
non-negative. -/
lemma enhanced_ok (p : Params) (hc : 0 ≤ (mealDeficit p).calories) :
    ∀ r ∈ getEnhancedFallbackRecommendations p, recFieldsOk r := by
  intro r hr
  rw [getEnhancedFallbackRecommendations] at hr
  have hpro : recFieldsOk (proteinFallbackRec (mealDeficit p) p.mealType) := by
    simp only [recFieldsOk, proteinFallbackRec]
    refine ⟨by decide, by decide, by decide, le_min hc (by decide), by decide, by decide,
      by decide⟩
  have hfib : recFieldsOk (fiberFallbackRec (mealDeficit p) p.mealType) := by
    simp only [recFieldsOk, fiberFallbackRec]
    refine ⟨by decide, by decide, by decide, le_min hc (by decide), by decide, by decide,
      by decide⟩
  have hen : recFieldsOk (energyFallbackRec (mealDeficit p)) := by
    simp only [recFieldsOk, energyFallbackRec]
    refine ⟨by decide, by decide, by decide, le_min hc (by decide), by decide, by decide,
      by decide⟩
  by_cases h1 : (mealDeficit p).protein > 20 <;>
    by_cases h2 : (mealDeficit p).fiber > 15 <;>
    by_cases h3 : (mealDeficit p).calories > 500 <;>
    simp [h1, h2, h3] at hr
  all_goals
    first
    | exact getFallback_ok p.mealType r hr
    | (rcases hr with rfl | rfl | rfl <;> assumption)

/-- When no deficit threshold is crossed, the enhanced fallback reduces to the
static table lookup. -/
lemma enhanced_no_threshold (p : Params)
    (hp : (mealDeficit p).protein ≤ 20) (hf : (mealDeficit p).fiber ≤ 15)
    (hc : (mealDeficit p).calories ≤ 500) :
    getEnhancedFallbackRecommendations p = getFallbackMealRecommendations p.mealType := by
  rw [getEnhancedFallbackRecommendations]
  simp [not_lt.mpr hp, not_lt.mpr hf, not_lt.mpr hc]

/-! The claims. -/

/-- C4: on every input for which the LLM endpoint is unavailable or returns a
non-success status (a failed outcome, including the backend 503 sent on a
failed health check), `getMealRecommendations` returns exactly the fallback
catalog's output for that input; the embedded pipeline is a total function, so
no exception reaches the caller. -/
theorem c4_failure_yields_fallback (p : Params) (now : Nat) :
    getMealRecommendations p none now = getEnhancedFallbackRecommendations p ∧
    pipelineResult p none now = getEnhancedFallbackRecommendations p :=
  ⟨rfl, rfl⟩

/-- C9: for every response text and every prompt category, the record built by
`parseOllamaResponse` has confidence exactly 0.7, independent of the input. -/
theorem c9_confidence_constant (response : String) (type : PromptType) :
    (parseOllamaResponse response type).confidence = 0.7 :=
  rfl

/-- C3 counterexample: the claim says the pipeline never returns an empty
list, but on a successful LLM round trip whose text contains no extractable
recipe name, the backend produces only the generic advice record, which the
mobile normalization filters out, leaving an empty terminal result. -/
theorem c3_counterexample :
    pipelineResult c3Params (some "hello") 0 = [] := by
  decide

/-- C3 (amended): whenever the LLM path fails or is unhealthy, the terminal
result is non-empty — the fallback catalog guarantees at least one record; the
success path, however, can deliver an empty list. -/
theorem c3_amended_nonempty (p : Params) (now : Nat) :
    (getMealRecommendations p none now).isEmpty = false ∧
    (pipelineResult p none now).isEmpty = false :=
  ⟨enhanced_ne p, enhanced_ne p⟩

/-- C5: with protein deficit 25, fiber deficit 5 and calorie deficit 100, only
the protein threshold is crossed and the fallback catalog returns exactly the
high-protein record, for any requested meal type. -/
theorem c5_high_protein_only (p : Params)
    (hp : (mealDeficit p).protein = 25) (hf : (mealDeficit p).fiber = 5)
    (hc : (mealDeficit p).calories = 100) :
    getEnhancedFallbackRecommendations p =
      [proteinFallbackRec (mealDeficit p) p.mealType] ∧
    (proteinFallbackRec (mealDeficit p) p.mealType).id = "fallback-protein-1" ∧
    (proteinFallbackRec (mealDeficit p) p.mealType).name = "Kipfilet met Quinoa" ∧
    (proteinFallbackRec (mealDeficit p) p.mealType).calories = 100 := by
  refine ⟨?_, rfl, rfl, ?_⟩
  · rw [getEnhancedFallbackRecommendations]
    simp [hp, hf, hc]
  · simp [proteinFallbackRec, hc]

/-- C5 witness: the theorem applied to a caller state realizing those
deficits. -/
theorem c5_witness :
    getEnhancedFallbackRecommendations c5WParams =
      [proteinFallbackRec (mealDeficit c5WParams) c5WParams.mealType] ∧
    (proteinFallbackRec (mealDeficit c5WParams) c5WParams.mealType).id =
      "fallback-protein-1" ∧
    (proteinFallbackRec (mealDeficit c5WParams) c5WParams.mealType).name =
      "Kipfilet met Quinoa" ∧
    (proteinFallbackRec (mealDeficit c5WParams) c5WParams.mealType).calories = 100 :=
  c5_high_protein_only c5WParams (by decide) (by decide) (by decide)

/-- C6 counterexample: the claim says the record's meal type always equals the
requested meal type, but a requested snack falls through the table (which has
no snack key) to the lunch record. -/
theorem c6_counterexample :
    getEnhancedFallbackRecommendations c6CexParams = [lunchFallbackRec] ∧
    lunchFallbackRec.mealType = MealType.lunch ∧
    c6CexParams.mealType = some MealType.snack := by
  refine ⟨by decide, rfl, rfl⟩

/-- C6 (amended): when every deficit is at or below its threshold, the catalog
returns exactly one record; its meal type equals the requested one for
breakfast, lunch and dinner requests, while a missing or snack meal type
yields the lunch record. -/
theorem c6_amended (p : Params)
    (hp : (mealDeficit p).protein ≤ 20) (hf : (mealDeficit p).fiber ≤ 15)
    (hc : (mealDeficit p).calories ≤ 500) :
    (p.mealType = none → getEnhancedFallbackRecommendations p = [lunchFallbackRec]) ∧
    (p.mealType = some MealType.snack →
      getEnhancedFallbackRecommendations p = [lunchFallbackRec]) ∧
    (∀ mt : MealType, mt ≠ MealType.snack → p.mealType = some mt →
      ∃ r, getEnhancedFallbackRecommendations p = [r] ∧ r.mealType = mt) := by
  have base := enhanced_no_threshold p hp hf hc
  refine ⟨?_, ?_, ?_⟩
  · intro h
    rw [base, h]
    decide
  · intro h
    rw [base, h]
    decide
  · intro mt hne h
    rw [base, h]
    cases mt with
    | breakfast => exact ⟨breakfastFallbackRec, by decide, rfl⟩
    | lunch => exact ⟨lunchFallbackRec, by decide, rfl⟩
    | dinner => exact ⟨dinnerFallbackRec, by decide, rfl⟩
    | snack => exact absurd rfl hne

/-- C6 witness: with all deficits at zero and no requested meal type, the
catalog returns the lunch record. -/
theorem c6_witness :
    getEnhancedFallbackRecommendations c6WParams = [lunchFallbackRec] :=
  (c6_amended c6WParams (by decide) (by decide) (by decide)).1 rfl

/-- C8: a request with meal type breakfast and every deficit at or below its
threshold, hitting a failing LLM health check (a failed outcome), returns the
single static breakfast record, whose meal type is breakfast. -/
theorem c8_breakfast_end_to_end (p : Params) (now : Nat)
    (hmt : p.mealType = some MealType.breakfast)
    (hp : (mealDeficit p).protein ≤ 20) (hf : (mealDeficit p).fiber ≤ 15)
    (hc : (mealDeficit p).calories ≤ 500) :
    getMealRecommendations p none now = [breakfastFallbackRec] ∧
    breakfastFallbackRec.mealType = MealType.breakfast ∧
    (getMealRecommendations p none now).length = 1 := by
  have base : getMealRecommendations p none now = getFallbackMealRecommendations p.mealType :=
    enhanced_no_threshold p hp hf hc
  rw [base, hmt]
  exact ⟨by decide, rfl, by decide⟩

/-- C8 witness: the theorem applied to a concrete breakfast request. -/
theorem c8_witness :
    getMealRecommendations c8WParams none 0 = [breakfastFallbackRec] ∧
    breakfastFallbackRec.mealType = MealType.breakfast ∧
    (getMealRecommendations c8WParams none 0).length = 1 :=
  c8_breakfast_end_to_end c8WParams 0 rfl (by decide) (by decide) (by decide)

/-- C7: for every response text in which no kept line matches the list-marker
pattern, and for every prompt category, the parser returns exactly one
suggestion record carrying the full response text. -/
theorem c7_no_marker_generic (response : String) (type : PromptType)
    (h : ∀ line ∈ responseLines response, isMarkerLine line = false) :
    extractSuggestions response type = [{ advice := some response }] := by
  have hnil : ∀ (f : String → Option Suggestion),
      (∀ line, isMarkerLine line = false → f line = none) →
      (responseLines response).filterMap f = [] := fun f hf =>
    List.filterMap_eq_nil_iff.mpr fun line hl => hf line (h line hl)
  cases type with
  | meal_planning =>
    simp only [extractSuggestions]
    rw [hnil mealLineSuggestion (fun line hl => by simp [mealLineSuggestion, hl])]
    rfl
  | shopping_optimization =>
    simp only [extractSuggestions]
    rw [hnil shoppingLineSuggestion (fun line hl => by simp [shoppingLineSuggestion, hl])]
    rfl
  | budget_analysis =>
    simp only [extractSuggestions]
    rw [hnil budgetLineSuggestion (fun line hl => by simp [budgetLineSuggestion, hl])]
    rfl
  | cleaning_schedule =>
    simp only [extractSuggestions]
    rw [hnil cleaningLineSuggestion (fun line hl => by simp [cleaningLineSuggestion, hl])]
    rfl

/-- C7 witness: a marker-free response wrapped as a single generic record. -/
theorem c7_witness :
    extractSuggestions "hello world" PromptType.meal_planning =
      [{ advice := some "hello world" }] :=
  c7_no_marker_generic "hello world" PromptType.meal_planning (by decide)

/-- C10 counterexample: the claim's iff fails on a marker line that a
dish-name pattern does match yet that produces no record, because the
captured name trims to the empty string and is falsy. -/
theorem c10_counterexample :
    isMarkerLine "- recipe: ," = true ∧
    dishPatternMatch "- recipe: ," = true ∧
    mealLineSuggestion "- recipe: ," = none ∧
    extractSuggestions "- recipe: ," PromptType.meal_planning =
      [{ advice := some "- recipe: ," }] := by
  decide

/-- C10 (amended): a marker line produces a meal-planning record iff the
dish-name extraction yields a non-empty trimmed name; consequently a response
whose lines never yield such a name becomes the single generic full-text
record. -/
theorem c10_amended :
    (∀ line, isMarkerLine line = true →
      ((mealLineSuggestion line).isSome = true ↔
        ∃ s, extractRecipeName line = some s ∧ s ≠ "")) ∧
    (∀ response, (∀ line ∈ responseLines response,
        ¬∃ s, extractRecipeName line = some s ∧ s ≠ "") →
      extractSuggestions response PromptType.meal_planning =
        [{ advice := some response }]) := by
  constructor
  · intro line h
    rcases hrn : extractRecipeName line with _ | name
    · simp [mealLineSuggestion, h, hrn]
    · by_cases hn : name = "" <;> simp [mealLineSuggestion, h, hrn, hn]
  · intro response hresp
    have hnil : (responseLines response).filterMap mealLineSuggestion = [] := by
      apply List.filterMap_eq_nil_iff.mpr
      intro line hl
      by_cases hm : isMarkerLine line
      · rcases hrn : extractRecipeName line with _ | name
        · simp [mealLineSuggestion, hm, hrn]
        · have hn : name = "" := by
            by_contra hne
            exact hresp line hl ⟨name, hrn, hne⟩
          simp [mealLineSuggestion, hm, hrn, hn]
      · simp [mealLineSuggestion, hm]
    simp only [extractSuggestions]
    rw [hnil]
    rfl

/-- C10 witness: a marker line with a successful non-empty dish-name capture
produces a record. -/
theorem c10_witness : (mealLineSuggestion "- make soup").isSome = true :=
  (c10_amended.1 "- make soup" (by decide)).mpr ⟨"soup", by decide, by decide⟩

/-- C1 counterexample: the claim's non-negativity fails on the fallback path —
a caller already past the calorie target (deficit −500) crossing the protein
threshold gets a record whose calories field is `min(−500, 450) = −500`. -/
theorem c1_counterexample :
    ∃ r ∈ getEnhancedFallbackRecommendations c1CexParams, ¬recFieldsOk r := by
  decide

/-- C1 (amended): every record returned by the normalization step or the
fallback catalog has a non-null name, and every numeric field the suggestion
omitted is filled with the heuristic estimate; the numeric fields are all
non-negative provided the suggestion's supplied numeric values are
non-negative and, on the fallback path, the calorie deficit is non-negative. -/
theorem c1_amended (suggs : List Suggestion) (now : Nat) (p : Params)
    (hs : ∀ s ∈ suggs, suppliedNonneg s = true)
    (hc : 0 ≤ (mealDeficit p).calories) :
    (∀ r ∈ parseMealRecommendations suggs now, recFieldsOk r) ∧
    (∀ r ∈ getEnhancedFallbackRecommendations p, recFieldsOk r) ∧
    (∀ (idx : Nat) (s : Suggestion), s.prep_time = none →
      (parseMealRecommendation now idx s).prepTime = estimatePrepTime s.recipe_name) ∧
    (∀ (idx : Nat) (s : Suggestion), s.calories = none →
      (parseMealRecommendation now idx s).calories = estimateCalories s.recipe_name) ∧
    (∀ (idx : Nat) (s : Suggestion), s.protein = none →
      (parseMealRecommendation now idx s).protein = estimateProtein s.recipe_name) ∧
    (∀ (idx : Nat) (s : Suggestion), s.carbs = none →
      (parseMealRecommendation now idx s).carbs = estimateCarbs s.recipe_name) ∧
    (∀ (idx : Nat) (s : Suggestion), s.fat = none →
      (parseMealRecommendation now idx s).fat = estimateFat s.recipe_name) ∧
    (∀ (idx : Nat) (s : Suggestion),
      (parseMealRecommendation now idx s).difficulty = estimateDifficulty s.recipe_name) := by
  refine ⟨?_, enhanced_ok p hc, ?_, ?_, ?_, ?_, ?_, ?_⟩
  · intro r hr
    rw [parseMealRecommendations] at hr
    obtain ⟨⟨idx, s⟩, hmem, rfl⟩ := List.mem_map.mp hr
    have h' := (List.mem_filter.mp hmem).1
    obtain ⟨hlt, heq⟩ := List.mem_enum h'
    have hss : s ∈ suggs := heq ▸ List.getElem_mem hlt
    exact parseMealRecommendation_ok now idx s (hs s hss)
  · intro idx s h
    simp [parseMealRecommendation, h, orNum]
  · intro idx s h
    simp [parseMealRecommendation, h, orNum]
  · intro idx s h
    simp [parseMealRecommendation, h, orNum]
  · intro idx s h
    simp [parseMealRecommendation, h, orNum]
  · intro idx s h
    simp [parseMealRecommendation, h, orNum]
  · intro idx s
    rfl

/-- C1 witness: the normalization invariant at a concrete suggestion. -/
theorem c1_witness : recFieldsOk (parseMealRecommendation 0 0 c1Sugg) :=
  (c1_amended [c1Sugg] 0 c1WParams (by decide) (by decide)).1
    (parseMealRecommendation 0 0 c1Sugg) (by decide)

/-- C2 counterexample: the claim covers both prompt builders, but the mobile
`buildMealRecommendationPrompt` renders the raw deficits — a caller 500
calories past target puts the negative value −500 into the rendered text. -/
theorem c2_counterexample :
    includesSub (buildMealRecommendationPrompt c2CexParams) "-500" = true ∧
    (mealDeficit c2CexParams).calories = -500 := by
  exact ⟨by decide, by decide⟩

/-- C2 (amended): the backend `buildUserPrompt` floors every rendered deficit
at zero (the `Remaining today` line interpolates exactly the `max 0` values,
which are non-negative), and the mobile builder's fiber clause is rendered
only for a positive fiber deficit; the mobile builder's other four deficits
are rendered unfloored. -/
theorem c2_amended (goals current : NutritionInfo) (prompt : AiPrompt)
    (prefs : UserPreferences) (p : Params)
    (h1 : prompt.context.user_preferences = some prefs)
    (h2 : prefs.current_nutrition = some current)
    (h3 : prefs.nutrition_goals = some goals)
    (hfib : (mealDeficit p).fiber ≤ 0) :
    0 ≤ max 0 (calorieGap goals current) ∧ 0 ≤ max 0 (proteinGap goals current) ∧
    0 ≤ max 0 (carbGap goals current) ∧ 0 ≤ max 0 (fatGap goals current) ∧
    remainingLine goals current =
      "Remaining today: " ++ toString (max 0 (calorieGap goals current)) ++ " kcal, " ++
        toString (max 0 (proteinGap goals current)) ++ "g protein, " ++
        toString (max 0 (carbGap goals current)) ++ "g carbs, " ++
        toString (max 0 (fatGap goals current)) ++ "g fat\n" ∧
    (∃ x y, buildUserPrompt prompt = x ++ (remainingLine goals current ++ y)) ∧
    fiberClause (mealDeficit p) = "" := by
  refine ⟨le_max_left 0 _, le_max_left 0 _, le_max_left 0 _, le_max_left 0 _, rfl, ?_, ?_⟩
  · refine ⟨headerLines prompt.context ++ nutritionTodayLine current ++ dailyGoalsLine goals,
      mealsSection prefs ++ calendarSection prompt.context.calendar_events ++
        dietarySection prefs ++ userRequestTail prompt.user_input, ?_⟩
    simp only [buildUserPrompt, h1, nutritionSection, h2, h3, String.append_assoc]
  · simp [fiberClause, not_lt.mpr hfib]

/-- C2 witness: the theorem at a concrete backend prompt and a caller state
with fiber deficit zero. -/
theorem c2_witness :
    0 ≤ max 0 (calorieGap c2Goals c2Current) ∧ 0 ≤ max 0 (proteinGap c2Goals c2Current) ∧
    0 ≤ max 0 (carbGap c2Goals c2Current) ∧ 0 ≤ max 0 (fatGap c2Goals c2Current) ∧
    remainingLine c2Goals c2Current =
      "Remaining today: " ++ toString (max 0 (calorieGap c2Goals c2Current)) ++ " kcal, " ++
        toString (max 0 (proteinGap c2Goals c2Current)) ++ "g protein, " ++
        toString (max 0 (carbGap c2Goals c2Current)) ++ "g carbs, " ++
        toString (max 0 (fatGap c2Goals c2Current)) ++ "g fat\n" ∧
    (∃ x y, buildUserPrompt c2Prompt = x ++ (remainingLine c2Goals c2Current ++ y)) ∧
    fiberClause (mealDeficit c2WParams) = "" :=
  c2_amended c2Goals c2Current c2Prompt c2Prefs c2WParams rfl rfl rfl (by decide)

end Daywise
